import Mathlib

/-!
Verification of the person-detection video pipeline.

Shallow embedding of the repository's Python sources:
  - src/draw.py      — annotation (size buckets, box/label drawing)
  - src/video_io.py  — frame source/sink acquisition
  - src/detector.py  — detection data shape (the YOLO model is an external
                       collaborator; only its output shape is embedded)
  - src/main.py      — per-video orchestration, batch driving, metrics export

Python floats are embedded as rationals (ℚ), Python ints as ℤ/ℕ; OpenCV
frames and pixel-level drawing effects are abstract parameters; fallible
code returns Except / explicit outcome records.  Console output is not
modelled.
-/

namespace PersonDetection

/- ================= src/detector.py : data shape ================= -/

/-- `Detection` of src/detector.py: one box with class and confidence. -/
structure Detection where
  bbox : ℚ × ℚ × ℚ × ℚ
  confidence : ℚ
  class_name : String
  deriving DecidableEq, Repr

/- ================= src/draw.py ================= -/

/-- `DrawScale` of src/draw.py: scale settings for a single detection. -/
structure DrawScale where
  text_scale : ℚ
  text_thickness : ℕ
  box_thickness : ℕ
  padding : ℕ
  deriving DecidableEq, Repr

/-- The size reference computed by `_scales_for_bbox` (src/draw.py lines
85–87): `w = max(1.0, x2 - x1)`, `h = max(1.0, y2 - y1)`, `ref = min(w, h)`. -/
def bboxRef (bbox : ℚ × ℚ × ℚ × ℚ) : ℚ :=
  min (max 1 (bbox.2.2.1 - bbox.1)) (max 1 (bbox.2.2.2 - bbox.2.1))

/-- `_scales_for_bbox` of src/draw.py: bucketed scale selection. -/
def scales_for_bbox (bbox : ℚ × ℚ × ℚ × ℚ) : DrawScale :=
  let ref := bboxRef bbox
  if ref < 60 then
    { text_scale := 0.40, text_thickness := 1, box_thickness := 1, padding := 2 }
  else if ref < 150 then
    { text_scale := 0.55, text_thickness := 1, box_thickness := 2, padding := 4 }
  else
    { text_scale := 0.75, text_thickness := 2, box_thickness := 3, padding := 6 }

/-- The call `_scales_for_bbox(detection.bbox)` made per detection in
`draw_detections` (src/draw.py line 35): the scale is a function of the
bbox alone. -/
def scales_for_detection (d : Detection) : DrawScale :=
  scales_for_bbox d.bbox

lemma scales_small {b : ℚ × ℚ × ℚ × ℚ} (h : bboxRef b < 60) :
    scales_for_bbox b = { text_scale := 0.40, text_thickness := 1, box_thickness := 1, padding := 2 } := by
  simp [scales_for_bbox, h]

lemma scales_medium {b : ℚ × ℚ × ℚ × ℚ} (h1 : 60 ≤ bboxRef b) (h2 : bboxRef b < 150) :
    scales_for_bbox b = { text_scale := 0.55, text_thickness := 1, box_thickness := 2, padding := 4 } := by
  simp [scales_for_bbox, not_lt.mpr h1, h2]

lemma scales_large {b : ℚ × ℚ × ℚ × ℚ} (h : 150 ≤ bboxRef b) :
    scales_for_bbox b = { text_scale := 0.75, text_thickness := 2, box_thickness := 3, padding := 6 } := by
  have h1 : ¬ bboxRef b < 60 := not_lt.mpr (by linarith)
  have h2 : ¬ bboxRef b < 150 := not_lt.mpr h
  simp [scales_for_bbox, h1, h2]

lemma small_ne_medium :
    ({ text_scale := 0.40, text_thickness := 1, box_thickness := 1, padding := 2 } : DrawScale)
      ≠ { text_scale := 0.55, text_thickness := 1, box_thickness := 2, padding := 4 } := by
  simp [DrawScale.mk.injEq]

lemma small_ne_large :
    ({ text_scale := 0.40, text_thickness := 1, box_thickness := 1, padding := 2 } : DrawScale)
      ≠ { text_scale := 0.75, text_thickness := 2, box_thickness := 3, padding := 6 } := by
  simp [DrawScale.mk.injEq]

lemma medium_ne_large :
    ({ text_scale := 0.55, text_thickness := 1, box_thickness := 2, padding := 4 } : DrawScale)
      ≠ { text_scale := 0.75, text_thickness := 2, box_thickness := 3, padding := 6 } := by
  simp [DrawScale.mk.injEq]

/-- C2: for every bbox `(x1, y1, x2, y2)`, with `w = max 1 (x2 - x1)`,
`h = max 1 (y2 - y1)`, `ref = min w h`: `ref < 60` selects the small tuple
`(0.40, 1, 1, 2)`, `60 ≤ ref < 150` the medium tuple, `150 ≤ ref` the large
tuple; exactly one bucket is always selected; and the choice is a function
of the bbox alone, independent of confidence and class label. -/
theorem bucket_selection (b : ℚ × ℚ × ℚ × ℚ) :
    (bboxRef b < 60 →
      scales_for_bbox b = { text_scale := 0.40, text_thickness := 1, box_thickness := 1, padding := 2 }) ∧
    (60 ≤ bboxRef b → bboxRef b < 150 →
      scales_for_bbox b = { text_scale := 0.55, text_thickness := 1, box_thickness := 2, padding := 4 }) ∧
    (150 ≤ bboxRef b →
      scales_for_bbox b = { text_scale := 0.75, text_thickness := 2, box_thickness := 3, padding := 6 }) ∧
    ((scales_for_bbox b = { text_scale := 0.40, text_thickness := 1, box_thickness := 1, padding := 2 } ∧
      scales_for_bbox b ≠ { text_scale := 0.55, text_thickness := 1, box_thickness := 2, padding := 4 } ∧
      scales_for_bbox b ≠ { text_scale := 0.75, text_thickness := 2, box_thickness := 3, padding := 6 }) ∨
     (scales_for_bbox b ≠ { text_scale := 0.40, text_thickness := 1, box_thickness := 1, padding := 2 } ∧
      scales_for_bbox b = { text_scale := 0.55, text_thickness := 1, box_thickness := 2, padding := 4 } ∧
      scales_for_bbox b ≠ { text_scale := 0.75, text_thickness := 2, box_thickness := 3, padding := 6 }) ∨
     (scales_for_bbox b ≠ { text_scale := 0.40, text_thickness := 1, box_thickness := 1, padding := 2 } ∧
      scales_for_bbox b ≠ { text_scale := 0.55, text_thickness := 1, box_thickness := 2, padding := 4 } ∧
      scales_for_bbox b = { text_scale := 0.75, text_thickness := 2, box_thickness := 3, padding := 6 })) ∧
    (∀ c c' : ℚ, ∀ s s' : String,
      scales_for_detection { bbox := b, confidence := c, class_name := s }
        = scales_for_detection { bbox := b, confidence := c', class_name := s' }) := by
  refine ⟨fun h => scales_small h, fun h1 h2 => scales_medium h1 h2, fun h => scales_large h, ?_, ?_⟩
  · rcases lt_or_le (bboxRef b) 60 with h | h1
    · refine Or.inl ⟨scales_small h, ?_, ?_⟩
      · rw [scales_small h]; exact small_ne_medium
      · rw [scales_small h]; exact small_ne_large
    · rcases lt_or_le (bboxRef b) 150 with h2 | h3
      · refine Or.inr (Or.inl ⟨?_, scales_medium h1 h2, ?_⟩)
        · rw [scales_medium h1 h2]; exact fun h => small_ne_medium h.symm
        · rw [scales_medium h1 h2]; exact medium_ne_large
      · refine Or.inr (Or.inr ⟨?_, ?_, scales_large h3⟩)
        · rw [scales_large h3]; exact fun h => small_ne_large h.symm
        · rw [scales_large h3]; exact fun h => medium_ne_large h.symm
  · intro c c' s s'
    rfl

/-- Witness for C2 at the spec's own example boxes: bbox `(10, 10, 40, 40)`
has `ref = 30` and selects the small bucket; bbox `(0, 0, 200, 200)` has
`ref = 200` and selects the large bucket. -/
theorem bucket_selection_witness :
    scales_for_bbox (10, 10, 40, 40)
      = { text_scale := 0.40, text_thickness := 1, box_thickness := 1, padding := 2 } ∧
    scales_for_bbox (0, 0, 200, 200)
      = { text_scale := 0.75, text_thickness := 2, box_thickness := 3, padding := 6 } :=
  ⟨(bucket_selection (10, 10, 40, 40)).1 (by norm_num [bboxRef]),
   (bucket_selection (0, 0, 200, 200)).2.2.1 (by norm_num [bboxRef])⟩

/- ====== src/draw.py : drawing as mutation of named frame buffers ======

`draw_detections` receives a numpy frame (a mutable buffer), copies it, and
issues every cv2 drawing call against the copy.  To make the no-mutation
contract falsifiable, frames live in a store (`List Frame`, index = buffer
identity); cv2 calls mutate one buffer in place via `modifyBuf`; the
pixel-level effect of each cv2 primitive is an abstract parameter
(`DrawOps`), so the theorems hold for every drawing semantics. -/

/-- Module constants of src/draw.py (cv2 enums by their numeric values:
`FONT_HERSHEY_SIMPLEX = 0`, `LINE_AA = 16`, `FILLED = -1`). -/
def FONT : ℕ := 0

def LINE_AA : ℕ := 16

def FILLED : ℤ := -1

def BOX_COLOR : ℤ × ℤ × ℤ := (46, 204, 113)

def TEXT_COLOR : ℤ × ℤ × ℤ := (20, 20, 20)

/-- Python `int()` on a float: truncation toward zero. -/
def pyInt (q : ℚ) : ℤ :=
  if 0 ≤ q then ⌊q⌋ else ⌈q⌉

/-- `_as_int_tuple` of src/draw.py: cast bbox values to integer pixel
coordinates (truncation). -/
def as_int_tuple (bbox : ℚ × ℚ × ℚ × ℚ) : ℤ × ℤ × ℤ × ℤ :=
  (pyInt bbox.1, pyInt bbox.2.1, pyInt bbox.2.2.1, pyInt bbox.2.2.2)

/-- Python `f"{confidence:.2f}"`: fixed two-decimal rendering (ties rounded
to nearest; the float tie-breaking direction is immaterial to every claim). -/
def formatFixed2 (q : ℚ) : String :=
  let scaled : ℤ := round (q * 100)
  let a := scaled.natAbs
  (if scaled < 0 then "-" else "") ++ toString (a / 100) ++ "."
    ++ (if a % 100 < 10 then "0" else "") ++ toString (a % 100)

/-- The pixel-level behaviour of the cv2 primitives used by src/draw.py,
kept abstract: `rectangle frame pt1 pt2 color thickness lineType`,
`getTextSize text font scale thickness = ((width, height), baseline)`,
`putText frame text org font scale color thickness lineType`. -/
structure DrawOps (Frame : Type) where
  rectangle : Frame → ℤ × ℤ → ℤ × ℤ → ℤ × ℤ × ℤ → ℤ → ℕ → Frame
  getTextSize : String → ℕ → ℚ → ℕ → (ℕ × ℕ) × ℕ
  putText : Frame → String → ℤ × ℤ → ℕ → ℚ → ℤ × ℤ × ℤ → ℕ → ℕ → Frame

/-- In-place update of buffer `i` of the store (out-of-range: no effect). -/
def modifyBuf {Frame : Type} : List Frame → ℕ → (Frame → Frame) → List Frame
  | [], _, _ => []
  | x :: xs, 0, f => f x :: xs
  | x :: xs, n + 1, f => x :: modifyBuf xs n f

/-- `_draw_label` of src/draw.py, acting on the buffer `canvas` of `store`:
measure the text, draw the filled background rectangle (clamped to the top
edge), then render the text. -/
def draw_label {Frame : Type} (ops : DrawOps Frame) (store : List Frame) (canvas : ℕ)
    (x1 y1 : ℤ) (text : String) (text_scale : ℚ) (text_thickness : ℕ) (padding : ℕ) :
    List Frame :=
  let m := ops.getTextSize text FONT text_scale text_thickness
  let text_width := m.1.1
  let text_height := m.1.2
  let baseline := m.2
  let y_top := max (y1 - text_height - baseline - 2 * (padding : ℤ)) 0
  let x_end := x1 + text_width + 2 * (padding : ℤ)
  let y_end := y_top + text_height + baseline + 2 * (padding : ℤ)
  let store1 := modifyBuf store canvas
    (fun f => ops.rectangle f (x1, y_top) (x_end, y_end) BOX_COLOR FILLED LINE_AA)
  let text_org := (x1 + (padding : ℤ), y_end - (padding : ℤ) - (baseline / 2 : ℕ))
  modifyBuf store1 canvas
    (fun f => ops.putText f text text_org FONT text_scale TEXT_COLOR text_thickness LINE_AA)

/-- One iteration of the detection loop of `draw_detections` (src/draw.py
lines 34–54), drawing onto the buffer `annotated`. -/
def draw_one {Frame : Type} (ops : DrawOps Frame) (annotated : ℕ)
    (store : List Frame) (detection : Detection) : List Frame :=
  let scale := scales_for_bbox detection.bbox
  let c := as_int_tuple detection.bbox
  let store1 := modifyBuf store annotated
    (fun f => ops.rectangle f (c.1, c.2.1) (c.2.2.1, c.2.2.2) BOX_COLOR
      (scale.box_thickness : ℤ) LINE_AA)
  let label := detection.class_name ++ " " ++ formatFixed2 detection.confidence
  draw_label ops store1 annotated c.1 c.2.1 label scale.text_scale scale.text_thickness
    scale.padding

/-- `draw_detections` of src/draw.py: `annotated = frame.copy()` allocates a
fresh buffer holding the contents of buffer `frame`; every drawing call then
targets `annotated`; the new buffer's identity is returned. -/
def draw_detections {Frame : Type} [Inhabited Frame] (ops : DrawOps Frame)
    (store : List Frame) (frame : ℕ) (detections : List Detection) :
    List Frame × ℕ :=
  let annotated := store.length
  let store1 := store ++ [store.getD frame default]
  (detections.foldl (fun s d => draw_one ops annotated s d) store1, annotated)

lemma modifyBuf_length {Frame : Type} (store : List Frame) (i : ℕ) (f : Frame → Frame) :
    (modifyBuf store i f).length = store.length := by
  induction store generalizing i with
  | nil => rfl
  | cons x xs ih =>
    cases i with
    | zero => rfl
    | succ n => simpa [modifyBuf] using ih n

lemma modifyBuf_get?_ne {Frame : Type} (store : List Frame) (i j : ℕ) (f : Frame → Frame)
    (h : j ≠ i) : (modifyBuf store i f).get? j = store.get? j := by
  induction store generalizing i j with
  | nil => rfl
  | cons x xs ih =>
    cases i with
    | zero =>
      cases j with
      | zero => exact absurd rfl h
      | succ m => rfl
    | succ n =>
      cases j with
      | zero => rfl
      | succ m => simpa [modifyBuf] using ih n m (fun hc => h (by rw [hc]))

lemma draw_label_get?_ne {Frame : Type} (ops : DrawOps Frame) (store : List Frame)
    (canvas : ℕ) (x1 y1 : ℤ) (text : String) (ts : ℚ) (tt pad : ℕ) (j : ℕ) (h : j ≠ canvas) :
    (draw_label ops store canvas x1 y1 text ts tt pad).get? j = store.get? j := by
  unfold draw_label
  rw [modifyBuf_get?_ne _ _ _ _ h, modifyBuf_get?_ne _ _ _ _ h]

lemma draw_label_length {Frame : Type} (ops : DrawOps Frame) (store : List Frame)
    (canvas : ℕ) (x1 y1 : ℤ) (text : String) (ts : ℚ) (tt pad : ℕ) :
    (draw_label ops store canvas x1 y1 text ts tt pad).length = store.length := by
  unfold draw_label
  rw [modifyBuf_length, modifyBuf_length]

lemma draw_one_get?_ne {Frame : Type} (ops : DrawOps Frame) (annotated : ℕ)
    (store : List Frame) (d : Detection) (j : ℕ) (h : j ≠ annotated) :
    (draw_one ops annotated store d).get? j = store.get? j := by
  unfold draw_one
  rw [draw_label_get?_ne _ _ _ _ _ _ _ _ _ _ h, modifyBuf_get?_ne _ _ _ _ h]

lemma draw_one_length {Frame : Type} (ops : DrawOps Frame) (annotated : ℕ)
    (store : List Frame) (d : Detection) :
    (draw_one ops annotated store d).length = store.length := by
  unfold draw_one
  rw [draw_label_length, modifyBuf_length]

lemma foldl_draw_one_get?_ne {Frame : Type} (ops : DrawOps Frame) (annotated : ℕ)
    (detections : List Detection) (store : List Frame) (j : ℕ) (h : j ≠ annotated) :
    (detections.foldl (fun s d => draw_one ops annotated s d) store).get? j
      = store.get? j := by
  induction detections generalizing store with
  | nil => rfl
  | cons d ds ih => rw [List.foldl_cons, ih, draw_one_get?_ne _ _ _ _ _ h]

lemma foldl_draw_one_length {Frame : Type} (ops : DrawOps Frame) (annotated : ℕ)
    (detections : List Detection) (store : List Frame) :
    (detections.foldl (fun s d => draw_one ops annotated s d) store).length
      = store.length := by
  induction detections generalizing store with
  | nil => rfl
  | cons d ds ih => rw [List.foldl_cons, ih, draw_one_length]

/-- C8: for every frame, store and detection list (and every pixel-level
semantics of the cv2 primitives), `draw_detections` returns a freshly
allocated frame, leaves the input frame's buffer untouched, and mutates no
buffer other than the returned one. -/
theorem draw_detections_no_mutation {Frame : Type} [Inhabited Frame]
    (ops : DrawOps Frame) (store : List Frame) (frame : ℕ)
    (detections : List Detection) (h : frame < store.length) :
    (draw_detections ops store frame detections).2 = store.length ∧
    (draw_detections ops store frame detections).2 ≠ frame ∧
    (draw_detections ops store frame detections).1.get? frame = store.get? frame ∧
    (∀ j, j ≠ (draw_detections ops store frame detections).2 →
      (draw_detections ops store frame detections).1.get? j = store.get? j) ∧
    (draw_detections ops store frame detections).1.length = store.length + 1 := by
  have hfresh : frame ≠ store.length := Nat.ne_of_lt h
  refine ⟨rfl, fun hc => hfresh hc.symm, ?_, ?_, ?_⟩
  · show (detections.foldl _ (store ++ [store.getD frame default])).get? frame = _
    rw [foldl_draw_one_get?_ne _ _ _ _ _ hfresh,
      List.get?_append (by simpa using h)]
  · intro j hj
    replace hj : j ≠ store.length := hj
    show (detections.foldl _ (store ++ [store.getD frame default])).get? j = _
    rw [foldl_draw_one_get?_ne _ _ _ _ _ hj]
    rcases Nat.lt_or_ge j store.length with hlt | hge
    · rw [List.get?_append (by simpa using hlt)]
    · have h1 : store.get? j = none := List.get?_eq_none.mpr (by simpa using hge)
      have h2 : (store ++ [store.getD frame default]).get? j = none := by
        apply List.get?_eq_none.mpr
        simp only [List.length_append, List.length_cons, List.length_nil]
        omega
      rw [h1, h2]
  · show (detections.foldl _ (store ++ [store.getD frame default])).length = _
    rw [foldl_draw_one_length]
    simp

/-- Witness for C8 at a concrete store and detection list (with a concrete
pixel semantics over `Frame := ℕ`). -/
theorem draw_detections_no_mutation_witness :
    (draw_detections
      { rectangle := fun f _ _ _ _ _ => f + 1,
        getTextSize := fun _ _ _ _ => ((12, 9), 4),
        putText := fun f _ _ _ _ _ _ _ => f + 10 }
      [(7 : ℕ)] 0 [{ bbox := (10, 10, 40, 40), confidence := 1/2, class_name := "person" }]).1.get? 0
      = some 7 ∧
    (draw_detections
      { rectangle := fun f _ _ _ _ _ => f + 1,
        getTextSize := fun _ _ _ _ => ((12, 9), 4),
        putText := fun f _ _ _ _ _ _ _ => f + 10 }
      [(7 : ℕ)] 0 [{ bbox := (10, 10, 40, 40), confidence := 1/2, class_name := "person" }]).2
      = 1 :=
  ⟨(draw_detections_no_mutation _ [(7 : ℕ)] 0 _ (by norm_num)).2.2.1,
   (draw_detections_no_mutation _ [(7 : ℕ)] 0 _ (by norm_num)).1⟩

/- ================= src/video_io.py ================= -/

/-- `VideoMetadata` of src/video_io.py. -/
structure VideoMetadata where
  width : ℤ
  height : ℤ
  fps : ℚ
  frame_count : ℤ
  deriving DecidableEq, Repr

/-- The error kinds `open_video_capture` raises: `FileNotFoundError` when the
path is missing, `ValueError` ("Failed to open video") when the container
cannot be parsed, `ValueError` ("Invalid video dimensions") when a reported
dimension is non-positive. -/
inductive VideoIOErrorKind where
  | fileNotFound
  | failedToOpen
  | invalidDimensions
  deriving DecidableEq, Repr

/-- What the filesystem and cv2 report for one path: whether it exists,
whether `cv2.VideoCapture(path).isOpened()`, and the container's reported
properties. -/
structure CaptureWorld where
  pathExists : Bool
  opens : Bool
  width : ℤ
  height : ℤ
  fps : ℚ
  frameCount : ℤ
  deriving DecidableEq, Repr

/-- Observable outcome of `open_video_capture`: whether a `VideoCapture`
object was constructed, whether it was released before raising, and the
result (metadata of the opened stream, or the error kind raised). -/
structure OpenCaptureOutcome where
  captureCreated : Bool
  captureReleased : Bool
  result : Except VideoIOErrorKind VideoMetadata
  deriving Repr

/-- Python `x or 0.0` on a float (`0` is falsy, anything else passes). -/
def pyOrZeroQ (q : ℚ) : ℚ :=
  if q = 0 then 0 else q

/-- Python `x or 0` on an int. -/
def pyOrZeroZ (n : ℤ) : ℤ :=
  if n = 0 then 0 else n

/-- `open_video_capture` of src/video_io.py lines 27–58. -/
def open_video_capture (w : CaptureWorld) : OpenCaptureOutcome :=
  if w.pathExists = false then
    { captureCreated := false, captureReleased := false,
      result := .error .fileNotFound }
  else if w.opens = false then
    { captureCreated := true, captureReleased := false,
      result := .error .failedToOpen }
  else if w.width ≤ 0 ∨ w.height ≤ 0 then
    { captureCreated := true, captureReleased := true,
      result := .error .invalidDimensions }
  else
    { captureCreated := true, captureReleased := false,
      result := .ok { width := w.width, height := w.height,
                      fps := pyOrZeroQ w.fps, frame_count := pyOrZeroZ w.frameCount } }

lemma open_video_capture_ok {w : CaptureWorld} (hex : w.pathExists = true)
    (hop : w.opens = true) (hdim : ¬ (w.width ≤ 0 ∨ w.height ≤ 0)) :
    open_video_capture w =
      { captureCreated := true, captureReleased := false,
        result := .ok { width := w.width, height := w.height,
                        fps := pyOrZeroQ w.fps, frame_count := pyOrZeroZ w.frameCount } } := by
  simp [open_video_capture, hex, hop, hdim]

/-- C9: `open_video_capture` fails with the not-found kind iff the path does
not exist; an existing but unparsable container fails with the cannot-open
kind; an existing, parsable container with a non-positive dimension fails
with the invalid-dimensions kind and releases the capture first; otherwise
it returns an open (unreleased) capture whose metadata has strictly positive
width and height. -/
theorem open_video_capture_error_model (w : CaptureWorld) :
    ((open_video_capture w).result = .error .fileNotFound ↔ w.pathExists = false) ∧
    (w.pathExists = true → w.opens = false →
      (open_video_capture w).result = .error .failedToOpen) ∧
    (w.pathExists = true → w.opens = true → (w.width ≤ 0 ∨ w.height ≤ 0) →
      (open_video_capture w).result = .error .invalidDimensions ∧
      (open_video_capture w).captureReleased = true) ∧
    (∀ md : VideoMetadata, (open_video_capture w).result = .ok md →
      0 < md.width ∧ 0 < md.height ∧
      (open_video_capture w).captureCreated = true ∧
      (open_video_capture w).captureReleased = false) ∧
    (w.pathExists = true → w.opens = true → 0 < w.width → 0 < w.height →
      (open_video_capture w).result
        = .ok { width := w.width, height := w.height,
                fps := pyOrZeroQ w.fps, frame_count := pyOrZeroZ w.frameCount }) := by
  refine ⟨⟨?_, ?_⟩, ?_, ?_, ?_, ?_⟩
  · intro hr
    rcases hex : w.pathExists with _ | _
    · rfl
    · rcases hop : w.opens with _ | _
      · simp [open_video_capture, hex, hop] at hr
      · by_cases hdim : w.width ≤ 0 ∨ w.height ≤ 0
        · simp [open_video_capture, hex, hop, hdim] at hr
        · rw [open_video_capture_ok hex hop hdim] at hr
          simp at hr
  · intro h
    simp [open_video_capture, h]
  · intro hex hop
    simp [open_video_capture, hex, hop]
  · intro hex hop hdim
    simp [open_video_capture, hex, hop, hdim]
  · intro md hmd
    rcases hex : w.pathExists with _ | _
    · simp [open_video_capture, hex] at hmd
    · rcases hop : w.opens with _ | _
      · simp [open_video_capture, hex, hop] at hmd
      · by_cases hdim : w.width ≤ 0 ∨ w.height ≤ 0
        · simp [open_video_capture, hex, hop, hdim] at hmd
        · rw [open_video_capture_ok hex hop hdim] at hmd
          rw [open_video_capture_ok hex hop hdim]
          have hpos := hdim
          push_neg at hpos
          simp only [Except.ok.injEq] at hmd
          subst hmd
          exact ⟨hpos.1, hpos.2, rfl, rfl⟩
  · intro hex hop h1 h2
    have hdim : ¬ (w.width ≤ 0 ∨ w.height ≤ 0) :=
      not_or.mpr ⟨not_le.mpr h1, not_le.mpr h2⟩
    rw [open_video_capture_ok hex hop hdim]

/-- Witness for C9: a missing path fails not-found; an existing path with
zero width fails invalid-dimensions and releases the capture; a well-formed
640×480 source opens with its positive dimensions. -/
theorem open_video_capture_error_model_witness :
    (open_video_capture
      { pathExists := false, opens := false, width := 0, height := 0, fps := 0, frameCount := 0 }).result
      = .error .fileNotFound ∧
    ((open_video_capture
      { pathExists := true, opens := true, width := 0, height := 480, fps := 0, frameCount := 0 }).result
      = .error .invalidDimensions ∧
     (open_video_capture
      { pathExists := true, opens := true, width := 0, height := 480, fps := 0, frameCount := 0 }).captureReleased
      = true) ∧
    (open_video_capture
      { pathExists := true, opens := true, width := 640, height := 480, fps := 0, frameCount := 0 }).result
      = .ok { width := 640, height := 480, fps := pyOrZeroQ 0, frame_count := pyOrZeroZ 0 } :=
  ⟨(open_video_capture_error_model _).1.mpr rfl,
   (open_video_capture_error_model _).2.2.1 rfl rfl (Or.inl le_rfl),
   (open_video_capture_error_model _).2.2.2.2 rfl rfl (by norm_num) (by norm_num)⟩

/- ================= src/main.py : inference-size policy ================= -/

/-- Python's `imgsz` values: a single int or an `(height, width)` pair. -/
inductive Imgsz where
  | scalar (s : ℤ)
  | pair (height width : ℤ)
  deriving DecidableEq, Repr

/-- `int(math.ceil(dim / stride) * stride)` on one dimension
(src/main.py lines 170, 172–175). -/
def adjustDim (s stride : ℤ) : ℤ :=
  ⌈(s : ℚ) / (stride : ℚ)⌉ * stride

/-- `_adjust_imgsz_to_stride` of src/main.py lines 167–175; in the source
`stride` defaults to 32 and every call site uses that default. -/
def adjust_imgsz_to_stride (imgsz : Imgsz) (stride : ℤ) : Imgsz :=
  match imgsz with
  | .scalar s => .scalar (adjustDim s stride)
  | .pair height width => .pair (adjustDim height stride) (adjustDim width stride)

/-- The effective inference size computed by `process_video` (src/main.py
lines 60–68): default to the source's native `(height, width)` when none is
requested, then snap to the stride. -/
def effective_imgsz (imgsz : Option Imgsz) (metadata : VideoMetadata) : Imgsz :=
  match imgsz with
  | Option.none => adjust_imgsz_to_stride (.pair metadata.height metadata.width) 32
  | some v => adjust_imgsz_to_stride v 32

lemma le_adjustDim (s : ℤ) : s ≤ adjustDim s 32 := by
  have h1 : ((s : ℚ)) ≤ (⌈(s : ℚ) / 32⌉ : ℚ) * 32 := by
    have h := Int.le_ceil ((s : ℚ) / 32)
    have h32 : (0 : ℚ) < 32 := by norm_num
    calc (s : ℚ) = (s : ℚ) / 32 * 32 := by field_simp
    _ ≤ (⌈(s : ℚ) / 32⌉ : ℚ) * 32 := by
        exact mul_le_mul_of_nonneg_right h (by norm_num)
  have : ((s : ℚ)) ≤ ((adjustDim s 32 : ℤ) : ℚ) := by
    unfold adjustDim
    push_cast
    exact h1
  exact_mod_cast this

lemma dvd_adjustDim (s : ℤ) : 32 ∣ adjustDim s 32 :=
  Dvd.intro_left _ rfl

lemma adjustDim_min (s k : ℤ) (hk : 32 ∣ k) (hs : s ≤ k) : adjustDim s 32 ≤ k := by
  rcases hk with ⟨m, rfl⟩
  have hq : (s : ℚ) / 32 ≤ (m : ℚ) := by
    rw [div_le_iff (by norm_num : (0 : ℚ) < 32)]
    have : ((s : ℤ) : ℚ) ≤ ((32 * m : ℤ) : ℚ) := by exact_mod_cast hs
    push_cast at this
    linarith
  have hc : ⌈(s : ℚ) / 32⌉ ≤ m := Int.ceil_le.mpr (by exact_mod_cast hq)
  unfold adjustDim
  push_cast
  nlinarith [hc]

/-- C3: with no requested inference size the effective size defaults to the
source's native `(height, width)` and each dimension is rounded
independently; the per-dimension adjustment yields the smallest multiple of
32 that is at least the dimension; a requested scalar size 500 yields 512. -/
theorem imgsz_stride_policy :
    (∀ metadata : VideoMetadata, effective_imgsz Option.none metadata
        = Imgsz.pair (adjustDim metadata.height 32) (adjustDim metadata.width 32)) ∧
    (∀ h w : ℤ, adjust_imgsz_to_stride (Imgsz.pair h w) 32
        = Imgsz.pair (adjustDim h 32) (adjustDim w 32)) ∧
    (∀ s : ℤ, adjust_imgsz_to_stride (Imgsz.scalar s) 32 = Imgsz.scalar (adjustDim s 32)) ∧
    (∀ s : ℤ, 32 ∣ adjustDim s 32 ∧ s ≤ adjustDim s 32 ∧
      (∀ k : ℤ, 32 ∣ k → s ≤ k → adjustDim s 32 ≤ k)) ∧
    adjust_imgsz_to_stride (Imgsz.scalar 500) 32 = Imgsz.scalar 512 := by
  refine ⟨fun md => rfl, fun h w => rfl, fun s => rfl,
    fun s => ⟨dvd_adjustDim s, le_adjustDim s, fun k hk hs => adjustDim_min s k hk hs⟩, ?_⟩
  have hc : ⌈((500 : ℤ) : ℚ) / ((32 : ℤ) : ℚ)⌉ = (16 : ℤ) :=
    Int.ceil_eq_iff.mpr (by norm_num)
  show Imgsz.scalar (adjustDim 500 32) = Imgsz.scalar 512
  unfold adjustDim
  rw [hc]
  norm_num

/-- Witness for C3: the adjusted value for 500 is a multiple of 32, at least
500, and no larger than the multiple 512; the default for a 640×480 source is
the adjusted native `(height, width)` pair. -/
theorem imgsz_stride_policy_witness :
    (32 ∣ adjustDim 500 32 ∧ 500 ≤ adjustDim 500 32 ∧ adjustDim 500 32 ≤ 512) ∧
    effective_imgsz Option.none
        { width := 640, height := 480, fps := 0, frame_count := 0 }
      = Imgsz.pair (adjustDim 480 32) (adjustDim 640 32) ∧
    adjust_imgsz_to_stride (Imgsz.scalar 500) 32 = Imgsz.scalar 512 :=
  ⟨⟨(imgsz_stride_policy.2.2.2.1 500).1, (imgsz_stride_policy.2.2.2.1 500).2.1,
    (imgsz_stride_policy.2.2.2.1 500).2.2 512 ⟨16, by norm_num⟩ (by norm_num)⟩,
   imgsz_stride_policy.1 { width := 640, height := 480, fps := 0, frame_count := 0 },
   imgsz_stride_policy.2.2.2.2⟩

/- ================= src/main.py : per-video orchestration ================= -/

/-- `VideoMetrics` of src/main.py lines 23–37 (field order as declared). -/
structure VideoMetrics where
  input_path : String
  output_path : String
  frames : ℕ
  total_detections : ℕ
  avg_detections_per_frame : ℚ
  processing_fps : ℚ
  duration_seconds : ℚ
  model : String
  conf : ℚ
  imgsz : Option Imgsz
  device : String
  deriving DecidableEq, Repr, Inhabited

/-- `frame_index / duration if duration > 0 else 0.0` (src/main.py line 92). -/
def computeProcessingFps (frame_index : ℕ) (duration : ℚ) : ℚ :=
  if 0 < duration then (frame_index : ℚ) / duration else 0

/-- `total_detections / frame_index if frame_index else 0.0`
(src/main.py line 93; Python truthiness: `frame_index` iff it is non-zero). -/
def computeAvgDetections (total_detections frame_index : ℕ) : ℚ :=
  if frame_index ≠ 0 then (total_detections : ℚ) / (frame_index : ℚ) else 0

/-- The `VideoMetrics` record built at src/main.py lines 91–111. -/
def finalize_metrics (input_path output_path model_path : String) (conf : ℚ)
    (effective_imgsz : Imgsz) (device : String)
    (frame_index total_detections : ℕ) (duration : ℚ) : VideoMetrics :=
  { input_path := input_path, output_path := output_path,
    frames := frame_index, total_detections := total_detections,
    avg_detections_per_frame := computeAvgDetections total_detections frame_index,
    processing_fps := computeProcessingFps frame_index duration,
    duration_seconds := duration, model := model_path, conf := conf,
    imgsz := some effective_imgsz, device := device }

/-- The `while True` read/detect/draw/write loop (src/main.py lines 78–87)
run to end-of-stream over the frames the capture yields, with the
`frame_index` and `total_detections` accumulators; returns their final
values. -/
def stream_loop {Frame : Type} (detect : Frame → List Detection) :
    List Frame → ℕ → ℕ → ℕ × ℕ
  | [], frame_index, total_detections => (frame_index, total_detections)
  | f :: rest, frame_index, total_detections =>
      stream_loop detect rest (frame_index + 1) (total_detections + (detect f).length)

/-- The environment one `process_video` run executes against: what the
filesystem/cv2 report for the input path, whether `Detector(...)` raises
(e.g. `ValueError` when the model has no person class), whether
`create_video_writer` raises, the frames the capture yields before
end-of-stream, at which frame (if any) the detect/draw/write body raises,
the detector's per-frame output, and the measured wall-clock duration. -/
structure ProcessVideoEnv (Frame : Type) where
  world : CaptureWorld
  detectorRaises : Bool
  writerRaises : Bool
  frames : List Frame
  streamFailAt : Option ℕ
  detect : Frame → List Detection
  duration : ℚ

/-- Observable outcome of one `process_video` run: which of the two scoped
resources were acquired and released, whether an exception propagated to the
caller, and the returned metrics (none when an exception propagated). -/
structure ProcessVideoOutcome where
  captureAcquired : Bool
  captureReleased : Bool
  writerAcquired : Bool
  writerReleased : Bool
  raised : Bool
  result : Option VideoMetrics
  deriving Repr

/-- `process_video` of src/main.py lines 50–111, with exceptions injected by
`env`.  Control flow mirrors the source: the capture is acquired first (line
59); the Detector is constructed (line 71) and the writer created (line 72)
BEFORE the `try` block (lines 77–90) whose `finally` releases capture and
writer; an exception anywhere propagates and yields no metrics.  Device
normalization (`_normalize_device`, torch-dependent) is abstracted: `device`
stands for the normalized device string. -/
def process_video {Frame : Type} (env : ProcessVideoEnv Frame)
    (input_path output_path model_path : String) (conf : ℚ)
    (imgsz : Option Imgsz) (device : String) : ProcessVideoOutcome :=
  match (open_video_capture env.world).result with
  | .error _ =>
      { captureAcquired := false, captureReleased := false,
        writerAcquired := false, writerReleased := false,
        raised := true, result := Option.none }
  | .ok metadata =>
      let effective := effective_imgsz imgsz metadata
      if env.detectorRaises then
        { captureAcquired := true, captureReleased := false,
          writerAcquired := false, writerReleased := false,
          raised := true, result := Option.none }
      else if env.writerRaises then
        { captureAcquired := true, captureReleased := false,
          writerAcquired := false, writerReleased := false,
          raised := true, result := Option.none }
      else
        let streamRaised := match env.streamFailAt with
          | Option.none => false
          | some i => decide (i < env.frames.length)
        let cut := match env.streamFailAt with
          | Option.none => env.frames.length
          | some i => min i env.frames.length
        let s := stream_loop env.detect (env.frames.take cut) 0 0
        if streamRaised then
          { captureAcquired := true, captureReleased := true,
            writerAcquired := true, writerReleased := true,
            raised := true, result := Option.none }
        else
          { captureAcquired := true, captureReleased := true,
            writerAcquired := true, writerReleased := true,
            raised := false,
            result := some (finalize_metrics input_path output_path model_path
              conf effective device s.1 s.2 env.duration) }

/-- C1 is a code bug: an exception raised while constructing the `Detector`
(or the writer) occurs after the capture was acquired but before the
`try/finally` release guard begins, so the capture is never released.  This
theorem evaluates `process_video` at such a failing run: the capture is
acquired and not released, no metrics record is produced, and the exception
propagates. -/
theorem process_video_detector_failure_leaks_capture :
    process_video
      ({ world := { pathExists := true, opens := true, width := 640, height := 480,
                    fps := 0, frameCount := 0 },
         detectorRaises := true, writerRaises := false, frames := [],
         streamFailAt := Option.none, detect := fun _ => [],
         duration := 0 } : ProcessVideoEnv Unit)
      "assets/video.mp4" "outputs/video.mp4" "yolov8n.pt" (1/4) Option.none "cpu"
    = { captureAcquired := true, captureReleased := false,
        writerAcquired := false, writerReleased := false,
        raised := true, result := Option.none } := by
  rfl

lemma process_video_stream_failure_releases {Frame : Type}
    (env : ProcessVideoEnv Frame) (ip op mp : String) (conf : ℚ)
    (imgsz : Option Imgsz) (device : String) (md : VideoMetadata)
    (hok : (open_video_capture env.world).result = .ok md)
    (hdet : env.detectorRaises = false) (hwr : env.writerRaises = false)
    (i : ℕ) (hfail : env.streamFailAt = some i) (hlt : i < env.frames.length) :
    process_video env ip op mp conf imgsz device
      = { captureAcquired := true, captureReleased := true,
          writerAcquired := true, writerReleased := true,
          raised := true, result := Option.none } := by
  unfold process_video
  rw [hok]
  simp [hdet, hwr, hfail, hlt]

lemma process_video_result_fields {Frame : Type} (env : ProcessVideoEnv Frame)
    (ip op mp : String) (conf : ℚ) (imgsz : Option Imgsz) (device : String)
    (m : VideoMetrics)
    (h : (process_video env ip op mp conf imgsz device).result = some m) :
    m.avg_detections_per_frame = computeAvgDetections m.total_detections m.frames ∧
    m.processing_fps = computeProcessingFps m.frames m.duration_seconds := by
  unfold process_video at h
  rcases hres : (open_video_capture env.world).result with e | md
  · rw [hres] at h
    simp at h
  · rw [hres] at h
    rcases hdet : env.detectorRaises with _ | _
    · rcases hwr : env.writerRaises with _ | _
      · rcases hfail : env.streamFailAt with _ | i
        · simp only [hdet, hwr, hfail, Bool.false_eq_true, if_false] at h
          simp only [Option.some.injEq] at h
          subst h
          exact ⟨rfl, rfl⟩
        · by_cases hlt : i < env.frames.length
          · simp [hdet, hwr, hfail, hlt] at h
          · simp only [hdet, hwr, hfail, Bool.false_eq_true, if_false,
              decide_eq_true_eq, if_neg hlt, Option.some.injEq] at h
            subst h
            exact ⟨rfl, rfl⟩
      · simp [hdet, hwr] at h
    · simp [hdet] at h

/-- C5: in every metrics record a completed `process_video` run returns, the
reported `avg_detections_per_frame` is `total_detections / frames` when the
number of processed frames is positive, and `0` when no frames were
processed. -/
theorem avg_detections_reporting :
    (∀ {Frame : Type} (env : ProcessVideoEnv Frame) (ip op mp : String)
        (conf : ℚ) (imgsz : Option Imgsz) (device : String) (m : VideoMetrics),
      (process_video env ip op mp conf imgsz device).result = some m →
      m.avg_detections_per_frame = computeAvgDetections m.total_detections m.frames) ∧
    (∀ total n : ℕ, 0 < n → computeAvgDetections total n = (total : ℚ) / (n : ℚ)) ∧
    (∀ total : ℕ, computeAvgDetections total 0 = 0) := by
  refine ⟨?_, ?_, ?_⟩
  · intro Frame env ip op mp conf imgsz device m h
    exact (process_video_result_fields env ip op mp conf imgsz device m h).1
  · intro total n hn
    simp [computeAvgDetections, Nat.pos_iff_ne_zero.mp hn]
  · intro total
    simp [computeAvgDetections]

/-- C6: in every metrics record a completed `process_video` run returns, the
reported `processing_fps` is `frames / duration` when the measured wall-clock
duration is positive, and `0` when the duration is `0`. -/
theorem processing_fps_reporting :
    (∀ {Frame : Type} (env : ProcessVideoEnv Frame) (ip op mp : String)
        (conf : ℚ) (imgsz : Option Imgsz) (device : String) (m : VideoMetrics),
      (process_video env ip op mp conf imgsz device).result = some m →
      m.processing_fps = computeProcessingFps m.frames m.duration_seconds) ∧
    (∀ n : ℕ, ∀ d : ℚ, 0 < d → computeProcessingFps n d = (n : ℚ) / d) ∧
    (∀ n : ℕ, computeProcessingFps n 0 = 0) := by
  refine ⟨?_, ?_, ?_⟩
  · intro Frame env ip op mp conf imgsz device m h
    exact (process_video_result_fields env ip op mp conf imgsz device m h).2
  · intro n d hd
    simp [computeProcessingFps, hd]
  · intro n
    simp [computeProcessingFps]

/-- A concrete completed run used by the C5/C6 witnesses: a 640×480 source
yielding two frames, two detections per frame, measured duration 0. -/
def sampleEnv : ProcessVideoEnv Unit :=
  { world := { pathExists := true, opens := true, width := 640, height := 480,
               fps := 0, frameCount := 2 },
    detectorRaises := false, writerRaises := false, frames := [(), ()],
    streamFailAt := Option.none,
    detect := fun _ =>
      [{ bbox := (10, 10, 40, 40), confidence := 1/2, class_name := "person" },
       { bbox := (0, 0, 200, 200), confidence := 3/4, class_name := "person" }],
    duration := 0 }

/-- The metrics record `sampleEnv`'s run returns. -/
def sampleMetrics : VideoMetrics :=
  finalize_metrics "assets/video.mp4" "outputs/video.mp4" "yolov8n.pt" (1/4)
    (effective_imgsz Option.none
      { width := 640, height := 480, fps := pyOrZeroQ 0, frame_count := pyOrZeroZ 2 })
    "cpu" 2 4 0

lemma sampleEnv_result :
    (process_video sampleEnv "assets/video.mp4" "outputs/video.mp4" "yolov8n.pt"
      (1/4) Option.none "cpu").result = some sampleMetrics := by
  rfl

/-- Witness for C5: the sample run processed 2 frames with 4 detections and
reports `avg_detections_per_frame = 4 / 2`. -/
theorem avg_detections_reporting_witness :
    0 < sampleMetrics.frames ∧
    sampleMetrics.avg_detections_per_frame = ((4 : ℕ) : ℚ) / ((2 : ℕ) : ℚ) :=
  ⟨by norm_num [sampleMetrics, finalize_metrics],
   (avg_detections_reporting.1 sampleEnv "assets/video.mp4" "outputs/video.mp4"
      "yolov8n.pt" (1/4) Option.none "cpu" sampleMetrics sampleEnv_result).trans
    (avg_detections_reporting.2.1 4 2 (by norm_num))⟩

/-- Witness for C6: the sample run measured duration 0 and reports
`processing_fps = 0`. -/
theorem processing_fps_reporting_witness :
    sampleMetrics.processing_fps = 0 :=
  (processing_fps_reporting.1 sampleEnv "assets/video.mp4" "outputs/video.mp4"
      "yolov8n.pt" (1/4) Option.none "cpu" sampleMetrics sampleEnv_result).trans
    (processing_fps_reporting.2.2 2)

/- ================= src/main.py : metrics export ================= -/

/-- The Python values a `VideoMetrics` field can hold after `asdict`:
strings, ints, floats, the `(h, w)` imgsz tuple, or `None`. -/
inductive PyValue where
  | pstr (s : String)
  | pint (n : ℤ)
  | pfloat (q : ℚ)
  | ptuple (a b : ℤ)
  | pnone
  deriving DecidableEq, Repr

/-- `isinstance(value, float)` over the embedded values. -/
def pyvalue_is_float : PyValue → Bool
  | .pfloat _ => true
  | _ => false

/-- Python `round(q, ndigits)` (ties to nearest; the float tie-breaking
direction — Python rounds half to even — is immaterial to every claim, which
compares the export against this same rounding). -/
def pyRound (q : ℚ) (ndigits : ℕ) : ℚ :=
  ((round (q * (10 : ℚ) ^ ndigits) : ℤ) : ℚ) / (10 : ℚ) ^ ndigits

/-- The per-value branch of `_round_float_fields` (src/main.py lines
201–205): floats are rounded, every other value passes through. -/
def round_value (ndigits : ℕ) (v : PyValue) : PyValue :=
  match v with
  | .pfloat q => .pfloat (pyRound q ndigits)
  | v => v

/-- `_round_float_fields` of src/main.py lines 196–207: builds new
dictionaries, leaving the input records untouched. -/
def round_float_fields (data : List (List (String × PyValue))) (ndigits : ℕ) :
    List (List (String × PyValue)) :=
  data.map (fun item => item.map (fun kv => (kv.1, round_value ndigits kv.2)))

/-- How the `imgsz` field (int | tuple | None) appears as a Python value. -/
def imgszValue : Option Imgsz → PyValue
  | Option.none => .pnone
  | some (.scalar s) => .pint s
  | some (.pair h w) => .ptuple h w

/-- `dataclasses.asdict` on a `VideoMetrics`: the fields in declared order. -/
def asdict (m : VideoMetrics) : List (String × PyValue) :=
  [("input_path", .pstr m.input_path),
   ("output_path", .pstr m.output_path),
   ("frames", .pint (m.frames : ℤ)),
   ("total_detections", .pint (m.total_detections : ℤ)),
   ("avg_detections_per_frame", .pfloat m.avg_detections_per_frame),
   ("processing_fps", .pfloat m.processing_fps),
   ("duration_seconds", .pfloat m.duration_seconds),
   ("model", .pstr m.model),
   ("conf", .pfloat m.conf),
   ("imgsz", imgszValue m.imgsz),
   ("device", .pstr m.device)]

/-- The declared field order of `VideoMetrics`. -/
def metricsFieldNames : List String :=
  ["input_path", "output_path", "frames", "total_detections",
   "avg_detections_per_frame", "processing_fps", "duration_seconds",
   "model", "conf", "imgsz", "device"]

/-- What `write_metrics_files` leaves on disk, at the value level (before
textual serialization): the JSON array's records, and the CSV header and
rows (absent when the batch is empty — the CSV is only written `if data`). -/
structure ExportFiles where
  jsonRecords : List (List (String × PyValue))
  csvHeader : Option (List String)
  csvRows : Option (List (List PyValue))
  deriving DecidableEq, Repr

/-- `write_metrics_files` of src/main.py lines 178–193: round the float
fields of `asdict` of each record, dump all records to JSON, and, when the
batch is non-empty, write a CSV whose header is the first record's keys and
whose rows are produced by `csv.DictWriter` (each row looked up key by key
in header order). -/
def write_metrics_files (metrics : List VideoMetrics) : ExportFiles :=
  let data := round_float_fields (metrics.map asdict) 2
  match data with
  | [] => { jsonRecords := data, csvHeader := Option.none, csvRows := Option.none }
  | first :: _ =>
      let headers := first.map Prod.fst
      { jsonRecords := data,
        csvHeader := some headers,
        csvRows := some (data.map (fun item =>
          headers.map (fun k => (List.lookup k item).getD PyValue.pnone))) }

lemma write_metrics_files_jsonRecords (metrics : List VideoMetrics) :
    (write_metrics_files metrics).jsonRecords
      = round_float_fields (metrics.map asdict) 2 := by
  unfold write_metrics_files
  cases h : round_float_fields (metrics.map asdict) 2 with
  | nil => simp [h]
  | cons a t => simp [h]

lemma asdict_keys (m : VideoMetrics) : (asdict m).map Prod.fst = metricsFieldNames :=
  rfl

lemma lookup_map_value {α β γ : Type} [BEq α] (k : α) (f : β → γ)
    (l : List (α × β)) :
    List.lookup k (l.map (fun kv => (kv.1, f kv.2))) = (List.lookup k l).map f := by
  induction l with
  | nil => rfl
  | cons kv t ih =>
    by_cases hk : k == kv.1
    · simp [List.lookup, hk]
    · simp only [List.map_cons, List.lookup, hk]
      simpa [Bool.not_eq_true] using ih

lemma lookup_keys_map {α β : Type} [BEq α] [LawfulBEq α] (d : β)
    (l : List (α × β)) (hnd : (l.map Prod.fst).Nodup) :
    (l.map Prod.fst).map (fun k => (List.lookup k l).getD d) = l.map Prod.snd := by
  induction l with
  | nil => rfl
  | cons kv t ih =>
    simp only [List.map_cons, List.nodup_cons] at hnd ⊢
    refine congrArg₂ _ ?_ ?_
    · simp [List.lookup]
    · rw [List.map_congr_left, ih hnd.2]
      intro k hk
      have hne : ¬ (k == kv.1) = true := by
        simp only [beq_iff_eq]
        intro hc
        exact hnd.1 (hc ▸ hk)
      simp [List.lookup, hne]

lemma metricsFieldNames_nodup : metricsFieldNames.Nodup := by
  decide

/-- C4: for every non-empty batch, the export rounds exactly the float
fields (to 2 decimals) of each record's `asdict` — non-float fields pass
through unchanged and the in-memory records feed the export at full
precision; each exported record keeps `VideoMetrics`' declared field order;
the CSV header is the first record's field names; and the CSV rows carry
exactly the JSON records' values in the same order. -/
theorem metrics_export_round_trip (metrics : List VideoMetrics)
    (hne : metrics ≠ []) :
    (write_metrics_files metrics).jsonRecords.length = metrics.length ∧
    (∀ m : VideoMetrics, (asdict m).map Prod.fst = metricsFieldNames) ∧
    (∀ r ∈ (write_metrics_files metrics).jsonRecords,
        r.map Prod.fst = metricsFieldNames) ∧
    (∀ i, i < metrics.length → ∀ k v,
        List.lookup k (asdict (metrics.getD i default)) = some v →
        List.lookup k ((write_metrics_files metrics).jsonRecords.getD i [])
          = some (round_value 2 v)) ∧
    (∀ q : ℚ, round_value 2 (PyValue.pfloat q) = PyValue.pfloat (pyRound q 2)) ∧
    (∀ v : PyValue, pyvalue_is_float v = false → round_value 2 v = v) ∧
    (write_metrics_files metrics).csvHeader = some metricsFieldNames ∧
    (write_metrics_files metrics).csvRows
      = some ((write_metrics_files metrics).jsonRecords.map (List.map Prod.snd)) := by
  have hjson := write_metrics_files_jsonRecords metrics
  have hrec_keys : ∀ r ∈ (write_metrics_files metrics).jsonRecords,
      r.map Prod.fst = metricsFieldNames := by
    intro r hr
    rw [hjson] at hr
    unfold round_float_fields at hr
    rw [List.mem_map] at hr
    obtain ⟨item, hitem, rfl⟩ := hr
    rw [List.mem_map] at hitem
    obtain ⟨m, _, rfl⟩ := hitem
    rw [List.map_map]
    exact asdict_keys m
  obtain ⟨m0, rest, rfl⟩ : ∃ m0 rest, metrics = m0 :: rest := by
    cases metrics with
    | nil => exact absurd rfl hne
    | cons a t => exact ⟨a, t, rfl⟩
  have hdata : round_float_fields ((m0 :: rest).map asdict) 2
      = ((asdict m0).map (fun kv => (kv.1, round_value 2 kv.2)))
        :: round_float_fields (rest.map asdict) 2 := rfl
  refine ⟨?_, fun m => asdict_keys m, hrec_keys, ?_, fun q => rfl, ?_, ?_, ?_⟩
  · rw [hjson]
    unfold round_float_fields
    simp
  · intro i hi k v hv
    rw [hjson]
    unfold round_float_fields
    have hx : (m0 :: rest)[i]? = some ((m0 :: rest).getD i default) := by
      rw [List.getD_eq_getElem?_getD]
      cases hx : (m0 :: rest)[i]? with
      | none =>
        rw [List.getElem?_eq_none_iff] at hx
        omega
      | some x => rfl
    have hget : ((List.map asdict (m0 :: rest)).map
        (fun item => item.map (fun kv => (kv.1, round_value 2 kv.2)))).getD i []
        = (asdict ((m0 :: rest).getD i default)).map
            (fun kv => (kv.1, round_value 2 kv.2)) := by
      rw [List.getD_eq_getElem?_getD, List.getElem?_map, List.getElem?_map, hx]
      rfl
    rw [hget, lookup_map_value, hv]
    rfl
  · intro v hv
    cases v <;> simp_all [round_value, pyvalue_is_float]
  · show (write_metrics_files (m0 :: rest)).csvHeader = _
    unfold write_metrics_files
    rw [hdata]
    simp only [List.map_map]
    rw [show ((asdict m0).map (Prod.fst ∘ fun kv => (kv.1, round_value 2 kv.2)))
        = (asdict m0).map Prod.fst from rfl, asdict_keys]
  · show (write_metrics_files (m0 :: rest)).csvRows = _
    unfold write_metrics_files
    rw [hdata]
    simp only []
    congr 1
    apply List.map_congr_left
    intro item hitem
    have hkeys : item.map Prod.fst = metricsFieldNames := by
      apply hrec_keys
      rw [hjson, hdata]
      exact hitem
    have hhead : ((asdict m0).map (fun kv => (kv.1, round_value 2 kv.2))).map Prod.fst
        = metricsFieldNames := by
      rw [List.map_map]
      exact asdict_keys m0
    rw [hhead, ← hkeys]
    exact lookup_keys_map PyValue.pnone item (hkeys ▸ metricsFieldNames_nodup)

/-- Witness for C4 at a one-record batch. -/
theorem metrics_export_round_trip_witness :
    (write_metrics_files [sampleMetrics]).csvHeader = some metricsFieldNames ∧
    (write_metrics_files [sampleMetrics]).csvRows
      = some ((write_metrics_files [sampleMetrics]).jsonRecords.map (List.map Prod.snd)) ∧
    round_value 2 (PyValue.pstr "cpu") = PyValue.pstr "cpu" :=
  ⟨(metrics_export_round_trip [sampleMetrics] (by simp)).2.2.2.2.2.2.1,
   (metrics_export_round_trip [sampleMetrics] (by simp)).2.2.2.2.2.2.2,
   (metrics_export_round_trip [sampleMetrics] (by simp)).2.2.2.2.2.1
     (PyValue.pstr "cpu") rfl⟩

/- ================= src/main.py : batch driving ================= -/

/-- `VIDEO_EXTENSIONS` of src/main.py line 20 (a set; membership only). -/
def VIDEO_EXTENSIONS : List String := [".mp4", ".mov", ".avi", ".mkv"]

/-- One top-level entry of the input directory as `Path.iterdir` yields it:
its final component's name and whether it is a regular file. -/
structure DirEntry where
  name : String
  isFile : Bool
  deriving DecidableEq, Repr

/-- ASCII lowercasing of one character (`str.lower` on the ASCII range the
recognized extensions live in). -/
def lowerChar (c : Char) : Char :=
  if 65 ≤ c.toNat ∧ c.toNat ≤ 90 then Char.ofNat (c.toNat + 32) else c

/-- `str.lower()`. -/
def lowerString (s : String) : String :=
  { data := s.data.map lowerChar }

/-- Index of the last occurrence of `c` (Python `str.rfind`, as an Option). -/
def lastIndexOf (c : Char) : List Char → Option ℕ
  | [] => Option.none
  | x :: xs =>
      match lastIndexOf c xs with
      | some i => some (i + 1)
      | Option.none => if x = c then some 0 else Option.none

/-- `pathlib.PurePath.suffix` on a final path component: the substring from
the last dot, empty unless that dot is neither the first nor the last
character of the name. -/
def pySuffix (name : String) : String :=
  match lastIndexOf '.' name.data with
  | Option.none => ""
  | some i =>
      if 0 < i ∧ i < name.data.length - 1 then { data := name.data.drop i } else ""

/-- The comparison `sorted(..., key=lambda p: p.name)` uses. -/
def byName (a b : DirEntry) : Prop := a.name ≤ b.name

instance : DecidableRel byName :=
  fun a b => inferInstanceAs (Decidable (a.name ≤ b.name))

instance : IsTotal DirEntry byName :=
  ⟨fun a b => le_total a.name b.name⟩

instance : IsTrans DirEntry byName :=
  ⟨fun _ _ _ h h' => le_trans h h'⟩

/-- `_list_videos` of src/main.py lines 146–151: keep the top-level regular
files whose lower-cased suffix is a recognized video extension, sorted
ascending by file name (`sorted` is a stable sort; so is `insertionSort`). -/
def list_videos (entries : List DirEntry) : List DirEntry :=
  List.insertionSort byName
    (entries.filter (fun p =>
      p.isFile && decide (lowerString (pySuffix p.name) ∈ VIDEO_EXTENSIONS)))

/-- The Python exception classes process_directory can surface. -/
inductive PyErrorKind where
  | fileNotFoundError
  | valueError
  deriving DecidableEq, Repr

structure PyError where
  kind : PyErrorKind
  message : String
  deriving DecidableEq, Repr

/-- An ASCII apostrophe (Python's repr quote), kept out of string literals. -/
def pyQuote : Char := Char.ofNat 39

def pyQuoted (s : String) : String :=
  { data := pyQuote :: s.data ++ [pyQuote] }

/-- The message of the `FileNotFoundError` raised at src/main.py lines
125–127: `f"No videos with extensions {sorted(VIDEO_EXTENSIONS)} found in
{input_dir}"`. -/
def emptyBatchMessage (dirName : String) : String :=
  "No videos with extensions ["
    ++ String.intercalate ", " ([".avi", ".mkv", ".mov", ".mp4"].map pyQuoted)
    ++ "] found in " ++ dirName

/-- The loop over the selected videos (src/main.py lines 130–143): each
video is processed in order and its metrics appended; a failing video's
exception propagates at once.  `run_video` abstracts one `process_video`
call; `outputs` records the output files written for completed videos. -/
def batch_loop (run_video : DirEntry → Except PyError VideoMetrics)
    (output_dir : String) :
    List DirEntry → List VideoMetrics → List String →
      Except PyError (List VideoMetrics) × List String
  | [], collected, outputs => (.ok collected, outputs)
  | v :: rest, collected, outputs =>
      match run_video v with
      | .error e => (.error e, outputs)
      | .ok m => batch_loop run_video output_dir rest (collected ++ [m])
          (outputs ++ [output_dir ++ "/" ++ v.name])

/-- What a `process_directory` run leaves behind: its result and the
filesystem entries it created (the output directory and per-video outputs;
empty when it raises before `output_dir.mkdir`). -/
structure BatchOutcome where
  result : Except PyError (List VideoMetrics)
  createdOutputs : List String
  deriving Repr

/-- `process_directory` of src/main.py lines 114–143: list the videos, raise
`FileNotFoundError` (the EmptyBatch condition) before creating any output
when none is found, otherwise create the output directory and process each
video in order. -/
def process_directory (run_video : DirEntry → Except PyError VideoMetrics)
    (input_dir output_dir : String) (entries : List DirEntry) : BatchOutcome :=
  let videos := list_videos entries
  if videos.isEmpty then
    { result := .error { kind := .fileNotFoundError,
                         message := emptyBatchMessage input_dir },
      createdOutputs := [] }
  else
    let r := batch_loop run_video output_dir videos [] []
    { result := r.1, createdOutputs := output_dir :: r.2 }

/-- C10: a top-level entry is selected iff it is a regular file whose
extension, lower-cased, is one of `.mp4`, `.mov`, `.avi`, `.mkv`; the
selected files are ordered ascending by file name; and an upper-case
extension such as `.MP4` is recognized. -/
theorem video_selection_and_order (entries : List DirEntry) :
    (∀ e : DirEntry, e ∈ list_videos entries ↔
        e ∈ entries ∧ e.isFile = true ∧
          lowerString (pySuffix e.name) ∈ VIDEO_EXTENSIONS) ∧
    List.Sorted byName (list_videos entries) ∧
    lowerString (pySuffix "CLIP.MP4") ∈ VIDEO_EXTENSIONS := by
  refine ⟨?_, List.sorted_insertionSort byName _, by decide⟩
  intro e
  unfold list_videos
  rw [(List.perm_insertionSort byName _).mem_iff, List.mem_filter]
  simp [Bool.and_eq_true, decide_eq_true_eq, and_assoc]

/-- Witness for C10: `b.MP4` (upper-case extension, regular file) is
selected from a sample directory and `notes.txt` is not. -/
theorem video_selection_and_order_witness :
    ({ name := "b.MP4", isFile := true } : DirEntry)
      ∈ list_videos [{ name := "notes.txt", isFile := true },
                     { name := "b.MP4", isFile := true }] ∧
    ¬ ({ name := "notes.txt", isFile := true } : DirEntry)
      ∈ list_videos [{ name := "notes.txt", isFile := true },
                     { name := "b.MP4", isFile := true }] :=
  ⟨(video_selection_and_order _).1 _ |>.mpr ⟨by decide, rfl, by decide⟩,
   fun hc => by
    have h := ((video_selection_and_order _).1 _).mp hc
    exact absurd h.2.2 (by decide)⟩

/-- C7: a directory whose top level holds no regular file with a recognized
video extension makes `process_directory` raise the `FileNotFoundError`
whose message names the directory, before any output file or metrics record
is produced. -/
theorem empty_batch_raises (run_video : DirEntry → Except PyError VideoMetrics)
    (input_dir output_dir : String) (entries : List DirEntry)
    (h : ∀ e ∈ entries,
      ¬ (e.isFile = true ∧ lowerString (pySuffix e.name) ∈ VIDEO_EXTENSIONS)) :
    (process_directory run_video input_dir output_dir entries).result
      = .error { kind := .fileNotFoundError,
                 message := emptyBatchMessage input_dir } ∧
    (process_directory run_video input_dir output_dir entries).createdOutputs = [] ∧
    List.IsSuffix input_dir.data (emptyBatchMessage input_dir).data := by
  have hempty : list_videos entries = [] := by
    have hfilter : entries.filter (fun p =>
        p.isFile && decide (lowerString (pySuffix p.name) ∈ VIDEO_EXTENSIONS)) = [] := by
      rw [List.filter_eq_nil]
      intro a ha
      have := h a ha
      simp only [Bool.and_eq_true, decide_eq_true_eq]
      tauto
    rw [list_videos, hfilter]
    rfl
  refine ⟨?_, ?_, ?_⟩
  · simp [process_directory, hempty]
  · simp [process_directory, hempty]
  · refine ⟨("No videos with extensions ["
      ++ String.intercalate ", " ([".avi", ".mkv", ".mov", ".mp4"].map pyQuoted)
      ++ "] found in ").data, ?_⟩
    rw [← String.data_append]
    rfl

/-- Witness for C7 at a concrete directory holding a text file and a
subdirectory only. -/
theorem empty_batch_raises_witness :
    (process_directory (fun _ => .error { kind := .valueError, message := "" })
        "assets" "outputs"
        [{ name := "readme.txt", isFile := true },
         { name := "clips", isFile := false }]).result
      = .error { kind := .fileNotFoundError, message := emptyBatchMessage "assets" } ∧
    (process_directory (fun _ => .error { kind := .valueError, message := "" })
        "assets" "outputs"
        [{ name := "readme.txt", isFile := true },
         { name := "clips", isFile := false }]).createdOutputs = [] :=
  ⟨(empty_batch_raises _ "assets" "outputs" _ (by decide)).1,
   (empty_batch_raises _ "assets" "outputs" _ (by decide)).2.1⟩

end PersonDetection
